import Mathlib

/-
Verification development for the purchase-state synchronization layer of the
fitness-tracking mobile app repository.

The embedded code:
  - the PurchaseProvider state container (PurchaseContext.tsx): state fields
    isInitialized, isLoading, offerings, customerInfo, isPremium (derived),
    error; operations purchasePackage, restorePurchases, refreshCustomerInfo,
    login, logout, checkEntitlement, and the one-shot initialization effect;
  - the RevenueCat service facade (services/purchases.ts): initializePurchases.

Vendor SDK calls are asynchronous remote calls; in this shallow embedding each
operation takes the outcome of its vendor call as an explicit argument of type
Except PurchasesError CustomerInfo (the vendor either resolves with a
customer-info snapshot or rejects with an error carrying a userCancelled flag
and an optional message). The service-layer wrappers around purchase and
restore only log and rethrow the same error, and resolve with the same
snapshot, so the context operations are modelled directly on the vendor
outcome. State updates via React setters are modelled as functional updates
of a PurchaseState record; the value of the state after the operation settles
is the record the operation returns.
-/

/-- One entitlement entry of the vendor snapshot (value stored under an active
entitlement identifier); carries an optional expiration timestamp. -/
structure EntitlementInfo where
  expirationDate : Option String
deriving DecidableEq, Repr

/-- The entitlements field of a customer-info snapshot: active is the map from
entitlement identifier to entitlement entry, embedded as an association list. -/
structure Entitlements where
  active : List (String × EntitlementInfo)
deriving DecidableEq, Repr

/-- Vendor customer-info snapshot (CustomerInfo of react-native-purchases). -/
structure CustomerInfo where
  entitlements : Entitlements
deriving DecidableEq, Repr

/-- A purchasable package of the offerings catalog. -/
structure PurchasesPackage where
  identifier : String
  packageType : String
  priceString : String
deriving DecidableEq, Repr

/-- One offering: a named group of packages. -/
structure PurchasesOffering where
  identifier : String
  availablePackages : List PurchasesPackage
deriving DecidableEq, Repr

/-- The offerings catalog returned by the vendor fetch. -/
structure PurchasesOfferings where
  current : Option PurchasesOffering
  all : List (String × PurchasesOffering)
deriving DecidableEq, Repr

/-- A vendor error (PurchasesError): userCancelled flag plus an optional
message string; a missing or empty message is falsy in the source and makes
the catch blocks fall back to a generic text. -/
structure PurchasesError where
  userCancelled : Bool
  message : Option String
deriving DecidableEq, Repr

/-- JavaScript disjunction m-or-fallback on an optional string: the fallback
is used when the message is missing or empty (both falsy). -/
def jsOrElse (m : Option String) (fallback : String) : String :=
  match m with
  | none => fallback
  | some s => if s = "" then fallback else s

/-- The mutable aggregate held by PurchaseProvider: the five useState fields.
isPremium is derived, not stored. -/
structure PurchaseState where
  isInitialized : Bool
  isLoading : Bool
  offerings : Option PurchasesOfferings
  customerInfo : Option CustomerInfo
  error : Option String
deriving DecidableEq, Repr

/-- The initial state of the five useState hooks: not initialized, loading,
no offerings, no snapshot, no error. -/
def initialPurchaseState : PurchaseState :=
  { isInitialized := false
    isLoading := true
    offerings := none
    customerInfo := none
    error := none }

/-- checkEntitlement of the context: pure synchronous read; the source
expression is: customerInfo-optional-chain entitlements.active[entitlementId]
compared against undefined; absent snapshot gives false. -/
def checkEntitlement (s : PurchaseState) (entitlementId : String) : Bool :=
  match s.customerInfo with
  | none => false
  | some ci => (ci.entitlements.active.lookup entitlementId).isSome

/-- isPremium of the context: the same expression as checkEntitlement,
written inline in the component body with the configured premium entitlement
identifier (default "premium"). -/
def isPremium (premiumEntitlementId : String) (s : PurchaseState) : Bool :=
  match s.customerInfo with
  | none => false
  | some ci => (ci.entitlements.active.lookup premiumEntitlementId).isSome

/-- purchasePackage of the context: set loading, clear error, run the vendor
purchase; on resolve store the snapshot and return true; on reject set error
unless userCancelled and return false; finally clear loading. The returned
pair is the settled state and the boolean result. -/
def purchasePackage (s : PurchaseState) (pkg : PurchasesPackage)
    (res : Except PurchasesError CustomerInfo) : PurchaseState × Bool :=
  let s1 := { s with isLoading := true, error := none }
  match res with
  | .ok info => ({ s1 with customerInfo := some info, isLoading := false }, true)
  | .error err =>
      let s2 := if err.userCancelled then s1
                else { s1 with error := some (jsOrElse err.message "Purchase failed") }
      ({ s2 with isLoading := false }, false)

/-- restorePurchases of the context: same shape as purchasePackage but every
rejection, user-cancelled or not, sets error. -/
def restorePurchases (s : PurchaseState)
    (res : Except PurchasesError CustomerInfo) : PurchaseState × Bool :=
  let s1 := { s with isLoading := true, error := none }
  match res with
  | .ok info => ({ s1 with customerInfo := some info, isLoading := false }, true)
  | .error err =>
      ({ s1 with error := some (jsOrElse err.message "Failed to restore purchases"),
                 isLoading := false }, false)

/-- refreshCustomerInfo of the context: on resolve store the snapshot; on
reject only log (state untouched, nothing rethrown). -/
def refreshCustomerInfo (s : PurchaseState)
    (res : Except PurchasesError CustomerInfo) : PurchaseState :=
  match res with
  | .ok info => { s with customerInfo := some info }
  | .error _ => s

/-- login of the context: identify the user with the vendor; on resolve store
the returned snapshot; on reject only log. -/
def login (s : PurchaseState) (userId : String)
    (res : Except PurchasesError CustomerInfo) : PurchaseState :=
  match res with
  | .ok info => { s with customerInfo := some info }
  | .error _ => s

/-- logout of the context: on resolve store the returned anonymous snapshot;
on reject only log. -/
def logout (s : PurchaseState)
    (res : Except PurchasesError CustomerInfo) : PurchaseState :=
  match res with
  | .ok info => { s with customerInfo := some info }
  | .error _ => s

/-- Outcome shape of the one-shot initialization effect. The only awaited
expression inside the try block that can reject is the initializePurchases
call: the two parallel fetches each carry a catch that resolves them to null,
and the Promise.all over them therefore never rejects. So an execution either
fails at the vendor initialization (initFailed) or runs to completion with
the two independently settled fetch results (initOk). -/
inductive InitOutcome where
  | initFailed
  | initOk (off : Option PurchasesOfferings) (cust : Option CustomerInfo)
deriving DecidableEq, Repr

/-- The initialization effect of PurchaseProvider, acting on the state it
starts from: on failure set the generic error; on success mark initialized
and store whatever each fetch settled to; in both cases clear loading. -/
def runInit (s : PurchaseState) : InitOutcome → PurchaseState
  | .initFailed =>
      { s with error := some "Failed to initialize purchases", isLoading := false }
  | .initOk off cust =>
      { s with isInitialized := true, offerings := off, customerInfo := cust,
               isLoading := false }

/-- Environment seen by initializePurchases of the service facade: which
platform is running, the two optional environment-variable keys, and the
outcome the vendor configure call would have (none means it resolves). -/
structure PurchasesEnv where
  platformIsIOS : Bool
  iosKeyVar : Option String
  androidKeyVar : Option String
  configureError : Option PurchasesError
deriving DecidableEq, Repr

/-- The api key the service resolves: the platform-specific environment
variable, defaulted to the empty string when unset. -/
def resolvedApiKey (env : PurchasesEnv) : String :=
  if env.platformIsIOS then env.iosKeyVar.getD "" else env.androidKeyVar.getD ""

/-- The vendor configure call as the service sees it. -/
def configureCall (env : PurchasesEnv) : Except PurchasesError Unit :=
  match env.configureError with
  | none => .ok ()
  | some e => .error e

/-- How a run of initializePurchases ended. -/
inductive InitPurchasesResult where
  | skippedNoKey
  | configured
  | configureFailed
deriving DecidableEq, Repr

/-- initializePurchases of the service facade: warn and return early when the
resolved api key is empty; otherwise run the vendor configure inside a
try/catch that logs and swallows any rejection. The Except return type records
that the caller sees a rejection only through the .error constructor; the body
never produces one. -/
def initializePurchases (env : PurchasesEnv) :
    Except PurchasesError InitPurchasesResult :=
  if resolvedApiKey env = "" then .ok .skippedNoKey
  else
    match configureCall env with
    | .ok _ => .ok .configured
    | .error _ => .ok .configureFailed

/-- The provider initialization effect composed with the service facade: the
effect awaits initializePurchases and enters its catch branch only if that
call rejects; otherwise it proceeds to the fan-out of the two fetches. -/
def providerInit (env : PurchasesEnv) (off : Option PurchasesOfferings)
    (cust : Option CustomerInfo) : PurchaseState :=
  match initializePurchases env with
  | .ok _ => runInit initialPurchaseState (.initOk off cust)
  | .error _ => runInit initialPurchaseState .initFailed

/-- Identifiers of the active-entitlements set of a snapshot. -/
def activeIds (ci : CustomerInfo) : List String :=
  ci.entitlements.active.map Prod.fst

/-- Association-list lookup succeeds exactly when the key occurs among the
mapped first components. -/
theorem lookup_isSome_iff_mem (l : List (String × EntitlementInfo)) (k : String) :
    (l.lookup k).isSome = true ↔ k ∈ l.map Prod.fst := by
  induction l with
  | nil => simp [List.lookup]
  | cons hd tl ih =>
      rcases hd with ⟨a, b⟩
      by_cases h : k = a
      · subst h
        simp [List.lookup]
      · have hbeq : (k == a) = false := beq_false_of_ne h
        simp [List.lookup, hbeq, h, ih]

/-- C1, counterexample: starting from a state whose error field holds a
previous failure message, a user-cancelled purchase leaves error absent (the
attempt clears it on entry), not equal to the pre-call value as the claim
states. -/
theorem c1_counterexample :
    ¬ ((purchasePackage
          { isInitialized := true, isLoading := false, offerings := none,
            customerInfo := none, error := some "previous failure" }
          { identifier := "annual", packageType := "ANNUAL", priceString := "39.99" }
          (.error { userCancelled := true, message := none })).1.error
        = some "previous failure") := by
  decide

/-- C1, amended: after any call to purchasePackage that rejects with
userCancelled true, the error field is absent (the attempt clears it on entry
and a cancellation never repopulates it), the call returns false, and the
pre-call value is preserved exactly when it was already absent. -/
theorem c1_user_cancel_error_absent (s : PurchaseState) (pkg : PurchasesPackage)
    (err : PurchasesError) (hc : err.userCancelled = true) :
    (purchasePackage s pkg (.error err)).1.error = none ∧
    (purchasePackage s pkg (.error err)).2 = false ∧
    (s.error = none → (purchasePackage s pkg (.error err)).1.error = s.error) := by
  refine ⟨by simp [purchasePackage, hc], by simp [purchasePackage], ?_⟩
  intro h
  simp [purchasePackage, hc, h]

/-- C1, witness for the amended theorem at a concrete cancelled purchase. -/
theorem c1_witness :
    (purchasePackage initialPurchaseState
        { identifier := "annual", packageType := "ANNUAL", priceString := "39.99" }
        (.error { userCancelled := true, message := none })).1.error = none ∧
    (purchasePackage initialPurchaseState
        { identifier := "annual", packageType := "ANNUAL", priceString := "39.99" }
        (.error { userCancelled := true, message := none })).2 = false ∧
    (initialPurchaseState.error = none →
      (purchasePackage initialPurchaseState
          { identifier := "annual", packageType := "ANNUAL", priceString := "39.99" }
          (.error { userCancelled := true, message := none })).1.error
        = initialPurchaseState.error) :=
  c1_user_cancel_error_absent initialPurchaseState
    { identifier := "annual", packageType := "ANNUAL", priceString := "39.99" }
    { userCancelled := true, message := none } rfl

/-- C2: when the initialization sequence fails (the awaited vendor
initialization rejects, the only rejection point inside the try block), the
resulting state carries the generic initialization-failure message and is
still not initialized. -/
theorem c2_init_failure_generic_message :
    (runInit initialPurchaseState .initFailed).error
      = some "Failed to initialize purchases" ∧
    (runInit initialPurchaseState .initFailed).isInitialized = false := by
  decide

/-- C3: in every state of the purchase session, the derived isPremium flag
equals checkEntitlement at the configured premium identifier evaluated on the
current customerInfo: true exactly when the identifier occurs in the
active-entitlements set of the held snapshot, false when no snapshot is held. -/
theorem c3_isPremium_eq_checkEntitlement (s : PurchaseState) (pid : String) :
    isPremium pid s = checkEntitlement s pid ∧
    (isPremium pid s = true ↔ ∃ ci, s.customerInfo = some ci ∧ pid ∈ activeIds ci) ∧
    (s.customerInfo = none → isPremium pid s = false) := by
  refine ⟨rfl, ?_, ?_⟩
  · cases h : s.customerInfo with
    | none => simp [isPremium, h]
    | some ci =>
        simp only [isPremium, h]
        rw [lookup_isSome_iff_mem]
        constructor
        · intro hm
          exact ⟨ci, rfl, hm⟩
        · rintro ⟨c, hc, hm⟩
          cases hc
          exact hm
  · intro h
    simp [isPremium, h]

/-- C3, witness at a concrete state holding a snapshot with an active premium
entitlement. -/
theorem c3_witness :
    isPremium "premium"
        { initialPurchaseState with
            customerInfo :=
              some { entitlements :=
                { active := [("premium", { expirationDate := some "2026-01-01" })] } } }
      = checkEntitlement
          { initialPurchaseState with
              customerInfo :=
                some { entitlements :=
                  { active := [("premium", { expirationDate := some "2026-01-01" })] } } }
          "premium" ∧
    (isPremium "premium"
          { initialPurchaseState with
              customerInfo :=
                some { entitlements :=
                  { active := [("premium", { expirationDate := some "2026-01-01" })] } } }
        = true ↔
      ∃ ci, ({ initialPurchaseState with
            customerInfo :=
              some { entitlements :=
                { active := [("premium", { expirationDate := some "2026-01-01" })] } } }
          : PurchaseState).customerInfo = some ci ∧ "premium" ∈ activeIds ci) ∧
    (({ initialPurchaseState with
          customerInfo :=
            some { entitlements :=
              { active := [("premium", { expirationDate := some "2026-01-01" })] } } }
        : PurchaseState).customerInfo = none →
      isPremium "premium"
          { initialPurchaseState with
              customerInfo :=
                some { entitlements :=
                  { active := [("premium", { expirationDate := some "2026-01-01" })] } } }
        = false) :=
  c3_isPremium_eq_checkEntitlement
    { initialPurchaseState with
        customerInfo :=
          some { entitlements :=
            { active := [("premium", { expirationDate := some "2026-01-01" })] } } }
    "premium"

/-- C4: on every exit path of purchasePackage and of restorePurchases
(resolve, rejection of any kind, user cancellation included) the loading flag
of the settled state is false. -/
theorem c4_loading_released (s t : PurchaseState) (pkg : PurchasesPackage)
    (res rres : Except PurchasesError CustomerInfo) :
    (purchasePackage s pkg res).1.isLoading = false ∧
    (restorePurchases t rres).1.isLoading = false := by
  constructor
  · cases res with
    | ok info => simp [purchasePackage]
    | error err => simp [purchasePackage]
  · cases rres with
    | ok info => simp [restorePurchases]
    | error err => simp [restorePurchases]

/-- C5: purchasePackage on vendor success replaces the snapshot wholesale,
clears the error, releases loading and returns true, and the premium flag of
the settled state reflects the returned snapshot, so it is true whenever that
snapshot carries the configured premium entitlement; on a rejection that is
not a user cancellation the error is set to the vendor message or the generic
fallback and the call returns false. -/
theorem c5_purchase_outcomes (s : PurchaseState) (pkg : PurchasesPackage)
    (info : CustomerInfo) (err : PurchasesError) (eid : String)
    (hc : err.userCancelled = false) :
    purchasePackage s pkg (.ok info)
      = ({ s with isLoading := false, error := none, customerInfo := some info },
         true) ∧
    (eid ∈ activeIds info →
      isPremium eid (purchasePackage s pkg (.ok info)).1 = true) ∧
    (purchasePackage s pkg (.error err)).1.error
      = some (jsOrElse err.message "Purchase failed") ∧
    (purchasePackage s pkg (.error err)).2 = false := by
  refine ⟨rfl, ?_, ?_, by simp [purchasePackage]⟩
  · intro hent
    simp only [purchasePackage, isPremium]
    rw [lookup_isSome_iff_mem]
    exact hent
  · simp [purchasePackage, hc]

/-- C5, witness: the spec scenario, a purchase resolving with a snapshot that
holds the premium entitlement expiring 2026-01-01, against a concrete
non-cancelled failure. -/
theorem c5_witness :
    purchasePackage initialPurchaseState
        { identifier := "annual", packageType := "ANNUAL", priceString := "39.99" }
        (.ok { entitlements :=
          { active := [("premium", { expirationDate := some "2026-01-01" })] } })
      = ({ initialPurchaseState with
            isLoading := false, error := none,
            customerInfo :=
              some { entitlements :=
                { active := [("premium", { expirationDate := some "2026-01-01" })] } } },
         true) ∧
    ("premium" ∈ activeIds
        { entitlements :=
          { active := [("premium", { expirationDate := some "2026-01-01" })] } } →
      isPremium "premium"
          (purchasePackage initialPurchaseState
              { identifier := "annual", packageType := "ANNUAL", priceString := "39.99" }
              (.ok { entitlements :=
                { active := [("premium", { expirationDate := some "2026-01-01" })] } })).1
        = true) ∧
    (purchasePackage initialPurchaseState
        { identifier := "annual", packageType := "ANNUAL", priceString := "39.99" }
        (.error { userCancelled := false, message := some "Payment declined" })).1.error
      = some (jsOrElse (some "Payment declined") "Purchase failed") ∧
    (purchasePackage initialPurchaseState
        { identifier := "annual", packageType := "ANNUAL", priceString := "39.99" }
        (.error { userCancelled := false, message := some "Payment declined" })).2
      = false :=
  c5_purchase_outcomes initialPurchaseState
    { identifier := "annual", packageType := "ANNUAL", priceString := "39.99" }
    { entitlements :=
      { active := [("premium", { expirationDate := some "2026-01-01" })] } }
    { userCancelled := false, message := some "Payment declined" }
    "premium" rfl

/-- C6: restorePurchases returns true exactly when the vendor restore
resolves, even when the returned snapshot holds no active entitlement (then
the premium flag of the settled state is false while the call still returns
true); every rejection, user cancellation included, sets the error to the
vendor message or the generic fallback and returns false. -/
theorem c6_restore_outcomes (s : PurchaseState)
    (res : Except PurchasesError CustomerInfo) (err : PurchasesError)
    (info : CustomerInfo) (eid : String)
    (hempty : info.entitlements.active = []) :
    ((restorePurchases s res).2 = true ↔ ∃ i, res = .ok i) ∧
    (restorePurchases s (.ok info)).2 = true ∧
    isPremium eid (restorePurchases s (.ok info)).1 = false ∧
    (restorePurchases s (.error err)).1.error
      = some (jsOrElse err.message "Failed to restore purchases") ∧
    (restorePurchases s (.error err)).2 = false := by
  refine ⟨?_, rfl, ?_, by simp [restorePurchases], by simp [restorePurchases]⟩
  · cases res with
    | ok i => simp [restorePurchases]
    | error e => simp [restorePurchases]
  · simp [restorePurchases, isPremium, hempty, List.lookup]

/-- C6, witness: a restore resolving with an empty snapshot returns true with
premium flag false, and a concrete cancelled rejection still sets the error. -/
theorem c6_witness :
    ((restorePurchases initialPurchaseState
        (.ok { entitlements := { active := [] } })).2 = true ↔
      ∃ i, (.ok { entitlements := { active := [] } }
            : Except PurchasesError CustomerInfo)
          = .ok i) ∧
    (restorePurchases initialPurchaseState
        (.ok { entitlements := { active := [] } })).2 = true ∧
    isPremium "premium"
        (restorePurchases initialPurchaseState
            (.ok { entitlements := { active := [] } })).1 = false ∧
    (restorePurchases initialPurchaseState
        (.error { userCancelled := true, message := none })).1.error
      = some (jsOrElse none "Failed to restore purchases") ∧
    (restorePurchases initialPurchaseState
        (.error { userCancelled := true, message := none })).2 = false :=
  c6_restore_outcomes initialPurchaseState
    (.ok { entitlements := { active := [] } })
    { userCancelled := true, message := none }
    { entitlements := { active := [] } }
    "premium" rfl

/-- C7: the initialization scenario in which the vendor initialization and
the offerings fetch succeed while the customer-info fetch fails yields
initialized true, the fetched catalog, no snapshot, loading false and premium
flag false; and in general each fetch settles independently into its own
field without aborting the other. -/
theorem c7_init_fanout (cat : PurchasesOfferings) (pid : String)
    (off : Option PurchasesOfferings) (cust : Option CustomerInfo) :
    runInit initialPurchaseState (.initOk (some cat) none)
      = { isInitialized := true, isLoading := false, offerings := some cat,
          customerInfo := none, error := none } ∧
    isPremium pid (runInit initialPurchaseState (.initOk (some cat) none)) = false ∧
    (runInit initialPurchaseState (.initOk off cust)).isInitialized = true ∧
    (runInit initialPurchaseState (.initOk off cust)).offerings = off ∧
    (runInit initialPurchaseState (.initOk off cust)).customerInfo = cust ∧
    (runInit initialPurchaseState (.initOk off cust)).isLoading = false := by
  exact ⟨rfl, rfl, rfl, rfl, rfl, rfl⟩

/-- C8: refreshCustomerInfo, login and logout never touch the error field on
any outcome, and when the underlying vendor call rejects the whole state,
snapshot included, is unchanged (the operations return a plain state, so no
rejection reaches the caller). -/
theorem c8_silent_identity_ops (s : PurchaseState) (uid : String)
    (err : PurchasesError) (r1 r2 r3 : Except PurchasesError CustomerInfo) :
    (refreshCustomerInfo s r1).error = s.error ∧
    (login s uid r2).error = s.error ∧
    (logout s r3).error = s.error ∧
    refreshCustomerInfo s (.error err) = s ∧
    login s uid (.error err) = s ∧
    logout s (.error err) = s := by
  refine ⟨?_, ?_, ?_, rfl, rfl, rfl⟩
  · cases r1 <;> simp [refreshCustomerInfo]
  · cases r2 <;> simp [login]
  · cases r3 <;> simp [logout]

/-- C9: checkEntitlement is a pure synchronous read: true exactly when the
identifier occurs in the active-entitlements set of the held snapshot, false
when no snapshot has ever been fetched, and two evaluations on the same state
and identifier agree (the state is taken by value and never mutated). -/
theorem c9_checkEntitlement_pure (s : PurchaseState) (eid : String) :
    (checkEntitlement s eid = true ↔
      ∃ ci, s.customerInfo = some ci ∧ eid ∈ activeIds ci) ∧
    (s.customerInfo = none → checkEntitlement s eid = false) ∧
    checkEntitlement s eid = checkEntitlement s eid := by
  refine ⟨?_, ?_, rfl⟩
  · cases h : s.customerInfo with
    | none => simp [checkEntitlement, h]
    | some ci =>
        simp only [checkEntitlement, h]
        rw [lookup_isSome_iff_mem]
        constructor
        · intro hm
          exact ⟨ci, rfl, hm⟩
        · rintro ⟨c, hc, hm⟩
          cases hc
          exact hm
  · intro h
    simp [checkEntitlement, h]

/-- C9, witness at the initial state, where no snapshot is held. -/
theorem c9_witness :
    (checkEntitlement initialPurchaseState "premium" = true ↔
      ∃ ci, initialPurchaseState.customerInfo = some ci ∧ "premium" ∈ activeIds ci) ∧
    (initialPurchaseState.customerInfo = none →
      checkEntitlement initialPurchaseState "premium" = false) ∧
    checkEntitlement initialPurchaseState "premium"
      = checkEntitlement initialPurchaseState "premium" :=
  c9_checkEntitlement_pure initialPurchaseState "premium"

/-- C10: initializePurchases of the service facade never rejects: it resolves
for every environment; with no api key configured it resolves early after the
warning without configuring, with a key and a failing vendor configure it
resolves after catching and logging; and the provider therefore reaches
initialized true even when the vendor was never successfully configured. -/
theorem c10_initializePurchases_total (env envNoKey envFail : PurchasesEnv)
    (off : Option PurchasesOfferings) (cust : Option CustomerInfo)
    (hk : resolvedApiKey envNoKey = "")
    (hk2 : ¬ resolvedApiKey envFail = "")
    (hf : envFail.configureError.isSome = true) :
    (∃ r, initializePurchases env = .ok r) ∧
    initializePurchases envNoKey = .ok .skippedNoKey ∧
    initializePurchases envFail = .ok .configureFailed ∧
    (providerInit envNoKey off cust).isInitialized = true := by
  refine ⟨?_, ?_, ?_, ?_⟩
  · by_cases h : resolvedApiKey env = ""
    · exact ⟨.skippedNoKey, by simp [initializePurchases, h]⟩
    · cases hcc : configureCall env with
      | ok u => exact ⟨.configured, by simp [initializePurchases, h, hcc]⟩
      | error e => exact ⟨.configureFailed, by simp [initializePurchases, h, hcc]⟩
  · simp [initializePurchases, hk]
  · cases hce : envFail.configureError with
    | none => rw [hce] at hf; simp at hf
    | some e => simp [initializePurchases, hk2, configureCall, hce]
  · simp [providerInit, initializePurchases, hk, runInit]

/-- C10, witness: a platform with no key set, and an iOS environment whose
configure call rejects. -/
theorem c10_witness :
    (∃ r, initializePurchases
        { platformIsIOS := true, iosKeyVar := none, androidKeyVar := none,
          configureError := none } = .ok r) ∧
    initializePurchases
        { platformIsIOS := true, iosKeyVar := none, androidKeyVar := none,
          configureError := none }
      = .ok .skippedNoKey ∧
    initializePurchases
        { platformIsIOS := true, iosKeyVar := some "appl_key", androidKeyVar := none,
          configureError := some { userCancelled := false, message := some "bad key" } }
      = .ok .configureFailed ∧
    (providerInit
        { platformIsIOS := true, iosKeyVar := none, androidKeyVar := none,
          configureError := none }
        none none).isInitialized = true :=
  c10_initializePurchases_total
    { platformIsIOS := true, iosKeyVar := none, androidKeyVar := none,
      configureError := none }
    { platformIsIOS := true, iosKeyVar := none, androidKeyVar := none,
      configureError := none }
    { platformIsIOS := true, iosKeyVar := some "appl_key", androidKeyVar := none,
      configureError := some { userCancelled := false, message := some "bad key" } }
    none none rfl (by decide) rfl
